import Mathlib

/-!
Verification of the MTG Commander recommendation engine.

A shallow embedding of the Python module mtg_recommendation_system.py
(class MTGCommanderRecommendationSystem), with theorems about its
scoring, filtering, sorting and error behaviour.

Modelling conventions:
* Python floats are modelled as exact rationals.
* The fitted TF-IDF vectorizer and the sklearn cosine-similarity kernel
  are external artifacts; they are modelled as opaquely injected
  functions, one from text to a vector and one from a pair of vectors to
  a score.
* Dataframe columns holding serialized lists (color identity, keywords)
  are modelled in already-deserialized form, since ast.literal_eval is
  pure deserialization.
* Missing text cells are normalized by the code before use, so text
  fields are plain strings with the empty string playing the role of
  missing text.
* The stable Python sort is modelled by insertion sort: a stable sort of
  a list by a total preorder is unique, so any stable sort gives the
  same output.
-/

attribute [local semireducible] Rat.mul Rat.inv Rat.add Rat.sub

/-- One row of `creatures_df` (one catalog card). -/
structure Creature where
  name : String
  oracle_text_clean : String
  power_clean : ℚ
  toughness_clean : ℚ
  color_identity_parsed : List String
  keywords_parsed : List String
  secondary_type : String
deriving DecidableEq

/-- One row of `features_df` (one training example). -/
structure TrainingExample where
  commander : String
  recommended_creature : String
deriving DecidableEq

/-- One entry of the `commander_patterns` dict: ranked consensus keywords
and consensus secondary types, each with a support count. -/
structure CommanderPattern where
  consensus_keywords : List (String × Nat)
  consensus_types : List (String × Nat)
deriving DecidableEq

/-- The three flags returned by `_get_power_toughness_patterns`. -/
structure PTPatterns where
  high_power_boost : Bool
  low_power_boost : Bool
  high_toughness_boost : Bool
deriving DecidableEq

/-- One recommendation dictionary appended by `get_recommendations`. -/
structure Recommendation where
  creature_name : String
  base_similarity : ℚ
  final_score : ℚ
  boosts : List String
  penalties : List String
  is_known : Bool
  power_toughness : String
  oracle_length : Nat
deriving DecidableEq

/-- The dict returned by `get_commander_info`. -/
structure CommanderInfo where
  total_recommendations : Nat
  consensus_keywords : List (String × Nat)
  consensus_types : List (String × Nat)
  power_toughness_patterns : PTPatterns
deriving DecidableEq

/-- The engine state after `__init__`: the injected artifacts, the six
scoring knobs, and the precomputed embedding matrix. `cosine` stands for
the external `sklearn` `cosine_similarity` kernel applied to one pair of
vectors. -/
structure MTGSystem where
  tfidf : String → List ℚ
  cosine : List ℚ → List ℚ → ℚ
  commander_patterns : List (String × CommanderPattern)
  creatures_df : List Creature
  features_df : List TrainingExample
  keyword_boost : ℚ
  type_boost : ℚ
  power_boost : ℚ
  toughness_boost : ℚ
  known_penalty : ℚ
  short_text_penalty : ℚ
  creature_embeddings : List (List ℚ)

/-- Round half to even, as the Python float formatting does. -/
def roundHalfEven (q : ℚ) : ℤ :=
  let f := ⌊q⌋
  let r := q - f
  if r < 1/2 then f
  else if 1/2 < r then f + 1
  else if f % 2 = 0 then f else f + 1

/-- Two-decimal fixed formatting of an exact rational, as Python does in the boost labels. -/
def fmt2 (q : ℚ) : String :=
  let n := roundHalfEven (q * 100)
  let s := if n < 0 then "-" else ""
  let a := n.natAbs
  s ++ toString (a / 100) ++ "." ++ (if a % 100 < 10 then "0" else "") ++ toString (a % 100)

/-- Zero-decimal fixed formatting of an exact rational, as Python does in the penalty labels. -/
def fmt0 (q : ℚ) : String :=
  let n := roundHalfEven q
  (if n < 0 then "-" else "") ++ toString n.natAbs

/-- Catalog lookup (lines 65, 113 and 129): the first catalog row with
the given name, none when absent. -/
def findCreature (creatures : List Creature) (n : String) : Option Creature :=
  creatures.find? (fun c => c.name = n)

/-- Splitting on whitespace runs, dropping empty pieces, as the Python
no-argument string split does; written structurally over the character
list. The first argument accumulates the current word reversed. -/
def splitWsAux : List Char → List Char → List String
  | [], acc => if acc.isEmpty then [] else [String.mk acc.reverse]
  | c :: cs, acc =>
    if c.isWhitespace then
      if acc.isEmpty then splitWsAux cs []
      else String.mk acc.reverse :: splitWsAux cs []
    else splitWsAux cs (c :: acc)

/-- Python no-argument string split. -/
def splitWhitespace (s : String) : List String :=
  splitWsAux s.data []

/-- The secondary type tags of a creature: split on whitespace when the
field is non-empty, else no tags. -/
def secondaryTypes (c : Creature) : List String :=
  if c.secondary_type = "" then [] else splitWhitespace c.secondary_type

/-- Oracle text length of line 195: the text length, with 0 for an empty cell. -/
def oracleLen (c : Creature) : Nat :=
  if c.oracle_text_clean = "" then 0 else c.oracle_text_clean.length

/-- Training-row selection of line 107: the rows whose commander column equals the query. -/
def commanderRecs (sys : MTGSystem) (commander_name : String) : List TrainingExample :=
  sys.features_df.filter (fun r => r.commander = commander_name)

/-- Pattern lookup of line 121, with the two per-field defaulting gets of
lines 122-123 folded in: a missing commander yields empty lists. -/
def lookupPatterns (sys : MTGSystem) (commander_name : String) : CommanderPattern :=
  match sys.commander_patterns.find? (fun p => p.1 = commander_name) with
  | some p => p.2
  | none => ⟨[], []⟩

/-- The consensus keywords of line 122, support counts dropped. -/
def consensusKeywordsOf (sys : MTGSystem) (commander_name : String) : List String :=
  (lookupPatterns sys commander_name).consensus_keywords.map Prod.fst

/-- The consensus secondary types of line 123, support counts dropped. -/
def consensusTypesOf (sys : MTGSystem) (commander_name : String) : List String :=
  (lookupPatterns sys commander_name).consensus_types.map Prod.fst

/-- The `(power_clean, toughness_clean)` pairs collected by
`_get_power_toughness_patterns` for the companions that resolve against
the catalog. -/
def resolvedPTData (sys : MTGSystem) (commander_recs : List TrainingExample) :
    List (ℚ × ℚ) :=
  commander_recs.filterMap (fun r =>
    (findCreature sys.creatures_df r.recommended_creature).map
      (fun c => (c.power_clean, c.toughness_clean)))

/-- The method of lines 55-83 computing the three power and toughness pattern flags. -/
def getPTPatterns (sys : MTGSystem) (commander_recs : List TrainingExample) :
    PTPatterns :=
  if commander_recs.length = 0 then ⟨false, false, false⟩
  else
    let pt_data := resolvedPTData sys commander_recs
    if pt_data = [] then ⟨false, false, false⟩
    else
      let total : ℚ := pt_data.length
      { high_power_boost :=
          decide ((((pt_data.filter (fun pt => pt.1 ≥ 4)).length : ℚ) / total) ≥ 3/4)
        low_power_boost :=
          decide ((((pt_data.filter (fun pt => pt.1 ≤ 2)).length : ℚ) / total) ≥ 3/4)
        high_toughness_boost :=
          decide ((((pt_data.filter (fun pt => pt.2 > pt.1)).length : ℚ) / total) ≥ 4/5) }

/-- The companions of a commander that resolve against the catalog;
rows whose referenced creature is absent are dropped. -/
def resolvedCompanions (sys : MTGSystem) (commander_recs : List TrainingExample) :
    List Creature :=
  commander_recs.filterMap (fun r => findCreature sys.creatures_df r.recommended_creature)

/-- The second stage of `_get_power_toughness_patterns`, factored over the
resolved `(power, toughness)` data only. -/
def ptFromData (pt_data : List (ℚ × ℚ)) : PTPatterns :=
  if pt_data = [] then ⟨false, false, false⟩
  else
    let total : ℚ := pt_data.length
    { high_power_boost :=
        decide ((((pt_data.filter (fun pt => pt.1 ≥ 4)).length : ℚ) / total) ≥ 3/4)
      low_power_boost :=
        decide ((((pt_data.filter (fun pt => pt.1 ≤ 2)).length : ℚ) / total) ≥ 3/4)
      high_toughness_boost :=
        decide ((((pt_data.filter (fun pt => pt.2 > pt.1)).length : ℚ) / total) ≥ 4/5) }

/-- The color-identity legality test of lines 85-91. -/
def isValidColorIdentity (creature_colors commander_colors : List String) : Bool :=
  if creature_colors = [] then true
  else if commander_colors = [] then false
  else creature_colors.all (fun c => c ∈ commander_colors)

/-- The indices collected on lines 127-131: for each training row, the first
catalog index of the recommended creature, rows that do not resolve skipped. -/
def recIndices (sys : MTGSystem) (commander_recs : List TrainingExample) : List Nat :=
  commander_recs.filterMap (fun r =>
    sys.creatures_df.findIdx? (fun c => c.name = r.recommended_creature))

/-- Element-wise sum of same-length vectors, `np.sum(..., axis=0)` style. -/
def sumVecs (vs : List (List ℚ)) : List ℚ :=
  match vs with
  | [] => []
  | v :: rest => rest.foldl (fun acc w => List.zipWith (· + ·) acc w) v

/-- Element-wise mean of the rows, as numpy mean over axis 0. -/
def meanVec (vs : List (List ℚ)) : List ℚ :=
  (sumVecs vs).map (fun x => x / (vs.length : ℚ))

/-- The target embedding of line 137: the mean of the embeddings of the
resolved companions (row lookup by index, which the construction invariant
keeps in bounds). -/
def targetEmbedding (sys : MTGSystem) (commander_name : String) : List ℚ :=
  meanVec ((recIndices sys (commanderRecs sys commander_name)).map
    (fun i => sys.creature_embeddings.getD i []))

/-- The known recommended creature names of line 142, kept as the
row-order list since only membership is ever queried. -/
def knownCreatures (sys : MTGSystem) (commander_name : String) : List String :=
  (commanderRecs sys commander_name).map (fun r => r.recommended_creature)

/-- The loop body of `get_recommendations` (lines 144-210) for one
`(similarity, creature)` pair: `none` when the creature is skipped,
otherwise the recommendation record. -/
def scoreCreature (sys : MTGSystem) (commander_name : String) (include_known : Bool)
    (commander_colors : List String) (consensus_keywords consensus_types : List String)
    (pt : PTPatterns) (known : List String) (similarity : ℚ) (creature : Creature) :
    Option Recommendation :=
  if creature.name = commander_name then none
  else
    let is_known := creature.name ∈ known
    if ¬ include_known ∧ is_known then none
    else if ¬ isValidColorIdentity creature.color_identity_parsed commander_colors then none
    else
      let kwMatch := consensus_keywords.any (fun kw => decide (kw ∈ creature.keywords_parsed))
      let tyHit := consensus_types.find? (fun t => decide (t ∈ secondaryTypes creature))
      let hpB := pt.high_power_boost && decide (creature.power_clean ≥ 4)
      let lpB := pt.low_power_boost && decide (creature.power_clean ≤ 2)
      let htB := pt.high_toughness_boost && decide (creature.toughness_clean > creature.power_clean)
      let s1 := if kwMatch then similarity + sys.keyword_boost else similarity
      let s2 := if tyHit.isSome then s1 + sys.type_boost else s1
      let s3 := if hpB then s2 + sys.power_boost else s2
      let s4 := if lpB then s3 + sys.power_boost else s3
      let s5 := if htB then s4 + sys.toughness_boost else s4
      let s6 := if is_known then s5 * sys.known_penalty else s5
      let olen := oracleLen creature
      let s7 := if olen < 40 then s6 * sys.short_text_penalty else s6
      let b1 : List String :=
        if kwMatch then ["Keyword +" ++ fmt2 sys.keyword_boost] else []
      let b2 := match tyHit with
        | some t => b1 ++ ["Type(" ++ t ++ ") +" ++ fmt2 sys.type_boost]
        | none => b1
      let b3 := if hpB then b2 ++ ["HighPower +" ++ fmt2 sys.power_boost] else b2
      let b4 := if lpB then b3 ++ ["LowPower +" ++ fmt2 sys.power_boost] else b3
      let b5 := if htB then b4 ++ ["HighToughness +" ++ fmt2 sys.toughness_boost] else b4
      let p1 : List String :=
        if is_known then ["Known -" ++ fmt0 ((1 - sys.known_penalty) * 100) ++ "%"] else []
      let p2 :=
        if olen < 40 then p1 ++ ["ShortText -" ++ fmt0 ((1 - sys.short_text_penalty) * 100) ++ "%"]
        else p1
      some
        { creature_name := creature.name
          base_similarity := similarity
          final_score := s7
          boosts := b5
          penalties := p2
          is_known := is_known
          power_toughness := fmt0 creature.power_clean ++ "/" ++ fmt0 creature.toughness_clean
          oracle_length := olen }

/-- Lines 106-210 of `get_recommendations`: the retained candidate records in
catalog order, before sorting and truncation. Empty on each of the three
early returns. -/
def candidateList (sys : MTGSystem) (commander_name : String) (include_known : Bool) :
    List Recommendation :=
  let commander_recs := commanderRecs sys commander_name
  if commander_recs.length = 0 then []
  else
    match findCreature sys.creatures_df commander_name with
    | none => []
    | some commander_info =>
      let commander_colors := commander_info.color_identity_parsed
      let consensus_keywords := consensusKeywordsOf sys commander_name
      let consensus_types := consensusTypesOf sys commander_name
      let pt := getPTPatterns sys commander_recs
      if recIndices sys commander_recs = [] then []
      else
        let target := targetEmbedding sys commander_name
        let sims := sys.creature_embeddings.map (sys.cosine target)
        let known := knownCreatures sys commander_name
        (sims.zip sys.creatures_df).filterMap (fun p =>
          scoreCreature sys commander_name include_known commander_colors
            consensus_keywords consensus_types pt known p.1 p.2)

/-- The sort relation of line 213: descending `final_score`. The Python
code performs a stable sort with this key; a stable sort of a list by a
total preorder is unique, so the model fixes the stable insertion sort. -/
def recRel (a b : Recommendation) : Prop :=
  b.final_score ≤ a.final_score

instance : DecidableRel recRel :=
  fun a b => inferInstanceAs (Decidable (b.final_score ≤ a.final_score))

instance : IsTotal Recommendation recRel :=
  ⟨fun a b => le_total b.final_score a.final_score⟩

instance : IsTrans Recommendation recRel :=
  ⟨fun _ _ _ hab hbc => le_trans hbc hab⟩

/-- The method of lines 93-214: score, sort descending, truncate to the top entries. -/
def getRecommendations (sys : MTGSystem) (commander_name : String) (top_k : Nat)
    (include_known : Bool) : List Recommendation :=
  ((candidateList sys commander_name include_known).insertionSort recRel).take top_k

/-- The analysis-info query of lines 216-230. -/
def getCommanderInfo (sys : MTGSystem) (commander_name : String) :
    Option CommanderInfo :=
  let commander_recs := commanderRecs sys commander_name
  if commander_recs.length = 0 then none
  else
    let patterns := lookupPatterns sys commander_name
    some
      { total_recommendations := commander_recs.length
        consensus_keywords := patterns.consensus_keywords
        consensus_types := patterns.consensus_types
        power_toughness_patterns := getPTPatterns sys commander_recs }

/-- Modelled from the spec: the fitted vectorizer artifact, a pickled
object produced by the out-of-scope data pipeline and absent from the
source tree, is applied in batch to every catalog text at construction;
per the fail-fast clause of the spec — construction fails on an empty
catalog and the failure propagates as a construction error — its batch
transform rejects an empty document collection and otherwise embeds each
text. -/
def transformBatch (tfidf : String → List ℚ) (texts : List String) :
    Except String (List (List ℚ)) :=
  if texts.isEmpty then Except.error "empty catalog"
  else Except.ok (texts.map tfidf)

/-- The constructor together with the embedding precomputation of lines
28-53: store the artifacts and knobs and embed every catalog text once;
a failing batch transform propagates and no engine is produced. -/
def mkSystem (tfidf : String → List ℚ) (cosine : List ℚ → List ℚ → ℚ)
    (commander_patterns : List (String × CommanderPattern))
    (creatures_df : List Creature) (features_df : List TrainingExample)
    (keyword_boost type_boost power_boost toughness_boost known_penalty
      short_text_penalty : ℚ) : Except String MTGSystem :=
  match transformBatch tfidf (creatures_df.map (fun c => c.oracle_text_clean)) with
  | Except.error e => Except.error e
  | Except.ok embs =>
      Except.ok
        { tfidf := tfidf
          cosine := cosine
          commander_patterns := commander_patterns
          creatures_df := creatures_df
          features_df := features_df
          keyword_boost := keyword_boost
          type_boost := type_boost
          power_boost := power_boost
          toughness_boost := toughness_boost
          known_penalty := known_penalty
          short_text_penalty := short_text_penalty
          creature_embeddings := embs }


/-- A small concrete catalog exercising every scoring rule. -/
def sampleCreatures : List Creature :=
  [ { name := "C", oracle_text_clean := "short", power_clean := 2, toughness_clean := 2,
      color_identity_parsed := ["G"], keywords_parsed := [], secondary_type := "" },
    { name := "K", oracle_text_clean := "a creature card with a long enough rules text",
      power_clean := 4, toughness_clean := 5, color_identity_parsed := ["G"],
      keywords_parsed := ["Flying"], secondary_type := "Elf" },
    { name := "X", oracle_text_clean := "another creature card with long enough rules text",
      power_clean := 4, toughness_clean := 5, color_identity_parsed := [],
      keywords_parsed := ["Flying"], secondary_type := "Elf Warrior" },
    { name := "Y", oracle_text_clean := "text", power_clean := 1, toughness_clean := 1,
      color_identity_parsed := ["U"], keywords_parsed := [], secondary_type := "" },
    { name := "U", oracle_text_clean := "text", power_clean := 1, toughness_clean := 1,
      color_identity_parsed := ["B"], keywords_parsed := [], secondary_type := "" } ]

/-- A small concrete engine used to exercise the theorems below. -/
def sampleSys : MTGSystem :=
  { tfidf := fun t => [(t.length : ℚ)]
    cosine := fun _ b => b.headD 0 / 100
    commander_patterns := [("C", ⟨[("Flying", 3)], [("Elf", 3)]⟩)]
    creatures_df := sampleCreatures
    features_df := [⟨"C", "K"⟩, ⟨"C", "Gone"⟩, ⟨"T", "K"⟩, ⟨"U", "Mystery"⟩]
    keyword_boost := 1/10, type_boost := 1/10, power_boost := 1/20, toughness_boost := 1/20
    known_penalty := 17/20, short_text_penalty := 9/10
    creature_embeddings := sampleCreatures.map (fun c => [(c.oracle_text_clean.length : ℚ)]) }

/-- The top recommendation of the sample engine for commander C. -/
def sampleRecX : Recommendation :=
  { creature_name := "X", base_similarity := 49/100, final_score := 79/100,
    boosts := ["Keyword +0.10", "Type(Elf) +0.10", "HighPower +0.05", "HighToughness +0.05"],
    penalties := [], is_known := false, power_toughness := "4/5", oracle_length := 49 }

/-- A catalog whose two candidates tie at final score 0. -/
def tieCreatures : List Creature :=
  [ { name := "C", oracle_text_clean := "c", power_clean := 2, toughness_clean := 2,
      color_identity_parsed := ["G"], keywords_parsed := [], secondary_type := "" },
    { name := "A", oracle_text_clean := "a creature card with a long enough rules text",
      power_clean := 3, toughness_clean := 3, color_identity_parsed := [],
      keywords_parsed := [], secondary_type := "" },
    { name := "B", oracle_text_clean := "another creature card with long enough rules text",
      power_clean := 3, toughness_clean := 3, color_identity_parsed := [],
      keywords_parsed := [], secondary_type := "" } ]

/-- An engine whose similarity kernel is constantly zero, giving tied scores. -/
def tieSys : MTGSystem :=
  { tfidf := fun _ => [0], cosine := fun _ _ => 0
    commander_patterns := []
    creatures_df := tieCreatures
    features_df := [⟨"C", "A"⟩]
    keyword_boost := 1/10, type_boost := 1/10, power_boost := 1/20, toughness_boost := 1/20
    known_penalty := 17/20, short_text_penalty := 9/10
    creature_embeddings := tieCreatures.map (fun _ => [0]) }

/-- The first of the two tied candidate records of the tie engine. -/
def tieRecA : Recommendation :=
  { creature_name := "A", base_similarity := 0, final_score := 0,
    boosts := [], penalties := ["Known -15%"], is_known := true,
    power_toughness := "3/3", oracle_length := 45 }

/-- Second tied candidate record of `tieSys`. -/
def tieRecB : Recommendation :=
  { creature_name := "B", base_similarity := 0, final_score := 0,
    boosts := [], penalties := [], is_known := false,
    power_toughness := "3/3", oracle_length := 49 }

/-- A catalog with one keyword-matching known companion. -/
def cexCreatures : List Creature :=
  [ { name := "C", oracle_text_clean := "c", power_clean := 3, toughness_clean := 3,
      color_identity_parsed := ["G"], keywords_parsed := [], secondary_type := "" },
    { name := "K", oracle_text_clean := "a creature card with a long enough rules text",
      power_clean := 3, toughness_clean := 3, color_identity_parsed := ["G"],
      keywords_parsed := ["Flying"], secondary_type := "" } ]

/-- A degenerate engine with `known_penalty = 0`: the keyword boost of the
known candidate `"K"` is wiped out by the zero multiplier. -/
def cexSysA : MTGSystem :=
  { tfidf := fun _ => [0], cosine := fun _ _ => 0
    commander_patterns := [("C", ⟨[("Flying", 1)], []⟩)]
    creatures_df := cexCreatures
    features_df := [⟨"C", "K"⟩]
    keyword_boost := 1/10, type_boost := 1/10, power_boost := 1/20, toughness_boost := 1/20
    known_penalty := 0, short_text_penalty := 9/10
    creature_embeddings := cexCreatures.map (fun _ => [0]) }

/-- The degenerate engine with a strictly larger keyword boost and nothing else changed. -/
def cexSysB : MTGSystem := { cexSysA with keyword_boost := 2/10 }

/-- Rewriting a boolean `ite` condition into its propositional form. -/
theorem ite_decide_eq {P : Prop} [Decidable P] {b : Bool} (h : b = decide P) (x y : ℚ) :
    (if b then x else y) = if P then x else y := by
  subst h
  by_cases hP : P <;> simp [hP]

set_option maxHeartbeats 1600000 in
/-- Full characterization of a retained loop iteration: the record fields,
the skip conditions that must have failed, and the closed-form final score. -/
theorem scoreCreature_eq_some {sys : MTGSystem} {cmd : String} {ik : Bool}
    {colors cks cts known : List String} {pt : PTPatterns}
    {sim : ℚ} {c : Creature} {rec : Recommendation}
    (h : scoreCreature sys cmd ik colors cks cts pt known sim c = some rec) :
    rec.creature_name = c.name ∧ rec.base_similarity = sim ∧
    rec.is_known = decide (c.name ∈ known) ∧ rec.oracle_length = oracleLen c ∧
    c.name ≠ cmd ∧ (ik = false → c.name ∉ known) ∧
    isValidColorIdentity c.color_identity_parsed colors = true ∧
    rec.final_score =
      (sim + (if ∃ kw ∈ cks, kw ∈ c.keywords_parsed then sys.keyword_boost else 0)
           + (if ∃ t2 ∈ cts, t2 ∈ secondaryTypes c then sys.type_boost else 0)
           + (if pt.high_power_boost = true ∧ c.power_clean ≥ 4 then sys.power_boost else 0)
           + (if pt.low_power_boost = true ∧ c.power_clean ≤ 2 then sys.power_boost else 0)
           + (if pt.high_toughness_boost = true ∧ c.toughness_clean > c.power_clean
              then sys.toughness_boost else 0))
        * (if c.name ∈ known then sys.known_penalty else 1)
        * (if oracleLen c < 40 then sys.short_text_penalty else 1) := by
  simp only [scoreCreature] at h
  by_cases h1 : c.name = cmd
  · rw [if_pos h1] at h; exact Option.noConfusion h
  rw [if_neg h1] at h
  by_cases h2 : ¬ ik = true ∧ c.name ∈ known
  · rw [if_pos h2] at h; exact Option.noConfusion h
  rw [if_neg h2] at h
  by_cases h3 : ¬ isValidColorIdentity c.color_identity_parsed colors = true
  · rw [if_pos h3] at h; exact Option.noConfusion h
  rw [if_neg h3] at h
  simp only [Option.some.injEq] at h
  subst h
  refine ⟨rfl, rfl, rfl, rfl, h1, ?_, by simpa using h3, ?_⟩
  · intro hik hmem
    exact h2 ⟨by simp [hik], hmem⟩
  · have bkw : (cks.any fun kw => decide (kw ∈ c.keywords_parsed)) =
        decide (∃ kw ∈ cks, kw ∈ c.keywords_parsed) := by
      rcases hb : cks.any fun kw => decide (kw ∈ c.keywords_parsed) with _ | _
      · have hne : ¬ ∃ kw ∈ cks, kw ∈ c.keywords_parsed := by simpa using hb
        simp [hne]
      · have hex : ∃ kw ∈ cks, kw ∈ c.keywords_parsed := by simpa using hb
        simp [hex]
    have bty : ((cts.find? fun t2 => decide (t2 ∈ secondaryTypes c)).isSome) =
        decide (∃ t2 ∈ cts, t2 ∈ secondaryTypes c) := by
      rcases hb : cts.find? fun t2 => decide (t2 ∈ secondaryTypes c) with _ | t
      · have hne : ¬ ∃ t2 ∈ cts, t2 ∈ secondaryTypes c := by
          have hall := List.find?_eq_none.mp hb
          simpa using hall
        simp [hb, hne]
      · have hex : ∃ t2 ∈ cts, t2 ∈ secondaryTypes c :=
          ⟨t, List.mem_of_find?_eq_some hb, by simpa using List.find?_some hb⟩
        simp [hb, hex]
    have bhp : (pt.high_power_boost && decide (c.power_clean ≥ 4)) =
        decide (pt.high_power_boost = true ∧ c.power_clean ≥ 4) := by
      cases pt.high_power_boost <;> simp
    have blp : (pt.low_power_boost && decide (c.power_clean ≤ 2)) =
        decide (pt.low_power_boost = true ∧ c.power_clean ≤ 2) := by
      cases pt.low_power_boost <;> simp
    have bht : (pt.high_toughness_boost && decide (c.toughness_clean > c.power_clean)) =
        decide (pt.high_toughness_boost = true ∧ c.toughness_clean > c.power_clean) := by
      cases pt.high_toughness_boost <;> simp
    simp only [ite_decide_eq bkw, ite_decide_eq bty, ite_decide_eq bhp,
      ite_decide_eq blp, ite_decide_eq bht]
    split_ifs <;> ring


/-- Every retained candidate arises from the loop body applied to the
`i`-th similarity and the `i`-th catalog creature, with the commander
resolved in the catalog. -/
theorem mem_candidateList {sys : MTGSystem} {cmd : String} {ik : Bool}
    {rec : Recommendation} (h : rec ∈ candidateList sys cmd ik) :
    ∃ cmdr, findCreature sys.creatures_df cmd = some cmdr ∧
    ∃ (i : ℕ) (hi : i < sys.creature_embeddings.length) (hc : i < sys.creatures_df.length),
      scoreCreature sys cmd ik cmdr.color_identity_parsed (consensusKeywordsOf sys cmd)
        (consensusTypesOf sys cmd) (getPTPatterns sys (commanderRecs sys cmd))
        (knownCreatures sys cmd)
        (sys.cosine (targetEmbedding sys cmd) (sys.creature_embeddings.get ⟨i, hi⟩))
        (sys.creatures_df.get ⟨i, hc⟩) = some rec := by
  simp only [candidateList] at h
  split at h
  · simp at h
  split at h
  · simp at h
  rename_i cmdr hfind
  split at h
  · simp at h
  rename_i hidx
  obtain ⟨p, hp, hf⟩ := List.mem_filterMap.mp h
  obtain ⟨i, hlt, hgi⟩ := List.mem_iff_getElem.mp hp
  have hi : i < sys.creature_embeddings.length := by
    simp [List.length_zip] at hlt
    omega
  have hc : i < sys.creatures_df.length := by
    simp [List.length_zip] at hlt
    omega
  refine ⟨cmdr, hfind, i, hi, hc, ?_⟩
  subst hgi
  simp only [List.getElem_zip, List.getElem_map, List.get_eq_getElem] at hf ⊢
  exact hf

/-- Output records are retained candidates. -/
theorem mem_of_mem_getRecommendations {sys : MTGSystem} {cmd : String} {top_k : ℕ}
    {ik : Bool} {rec : Recommendation} (h : rec ∈ getRecommendations sys cmd top_k ik) :
    rec ∈ candidateList sys cmd ik :=
  (List.mem_insertionSort recRel).mp (List.mem_of_mem_take h)

/-- Claim C1: every record returned by getRecommendations corresponds to
a catalog creature at some index; its base similarity is the cosine of
the target embedding with the creature embedding at that index, and its
final score equals the base similarity plus the keyword boost, the type
boost and the applicable power and toughness boosts, each added at most
once when its condition holds, with the sum then multiplied by the known
penalty when the creature is a known companion and by the short-text
penalty when its oracle text length is below 40; the multiplicative
penalties compound after the additive boosts. -/
theorem mtg_C1 (sys : MTGSystem) (cmd : String) (top_k : ℕ) (ik : Bool)
    (rec : Recommendation) (h : rec ∈ getRecommendations sys cmd top_k ik) :
    ∃ (i : ℕ) (hi : i < sys.creature_embeddings.length) (hc : i < sys.creatures_df.length),
      rec.creature_name = (sys.creatures_df.get ⟨i, hc⟩).name ∧
      rec.base_similarity =
        sys.cosine (targetEmbedding sys cmd) (sys.creature_embeddings.get ⟨i, hi⟩) ∧
      rec.is_known = decide ((sys.creatures_df.get ⟨i, hc⟩).name ∈ knownCreatures sys cmd) ∧
      rec.final_score =
        (rec.base_similarity
          + (if ∃ kw ∈ consensusKeywordsOf sys cmd,
                kw ∈ (sys.creatures_df.get ⟨i, hc⟩).keywords_parsed
             then sys.keyword_boost else 0)
          + (if ∃ t2 ∈ consensusTypesOf sys cmd,
                t2 ∈ secondaryTypes (sys.creatures_df.get ⟨i, hc⟩)
             then sys.type_boost else 0)
          + (if (getPTPatterns sys (commanderRecs sys cmd)).high_power_boost = true ∧
                (sys.creatures_df.get ⟨i, hc⟩).power_clean ≥ 4
             then sys.power_boost else 0)
          + (if (getPTPatterns sys (commanderRecs sys cmd)).low_power_boost = true ∧
                (sys.creatures_df.get ⟨i, hc⟩).power_clean ≤ 2
             then sys.power_boost else 0)
          + (if (getPTPatterns sys (commanderRecs sys cmd)).high_toughness_boost = true ∧
                (sys.creatures_df.get ⟨i, hc⟩).toughness_clean >
                  (sys.creatures_df.get ⟨i, hc⟩).power_clean
             then sys.toughness_boost else 0))
        * (if (sys.creatures_df.get ⟨i, hc⟩).name ∈ knownCreatures sys cmd
           then sys.known_penalty else 1)
        * (if oracleLen (sys.creatures_df.get ⟨i, hc⟩) < 40
           then sys.short_text_penalty else 1) := by
  obtain ⟨cmdr, hfind, i, hi, hc, hs⟩ := mem_candidateList (mem_of_mem_getRecommendations h)
  obtain ⟨h1, h2, h3, h4, h5, h6, h7, h8⟩ := scoreCreature_eq_some hs
  exact ⟨i, hi, hc, h1, h2, h3, by rw [h8, h2]⟩

/-- Claim C6: no record returned by getRecommendations names the
commander itself. -/
theorem mtg_C6 (sys : MTGSystem) (cmd : String) (top_k : ℕ) (ik : Bool)
    (rec : Recommendation) (h : rec ∈ getRecommendations sys cmd top_k ik) :
    rec.creature_name ≠ cmd := by
  obtain ⟨cmdr, hfind, i, hi, hc, hs⟩ := mem_candidateList (mem_of_mem_getRecommendations h)
  obtain ⟨h1, -, -, -, h5, -⟩ := scoreCreature_eq_some hs
  rw [h1]
  exact h5

/-- Claim C7: with include_known false, no record returned by
getRecommendations names a known companion of the commander, that is a
creature appearing as the recommended creature of some training example
for that commander. -/
theorem mtg_C7 (sys : MTGSystem) (cmd : String) (top_k : ℕ)
    (rec : Recommendation) (h : rec ∈ getRecommendations sys cmd top_k false) :
    rec.creature_name ∉ knownCreatures sys cmd := by
  obtain ⟨cmdr, hfind, i, hi, hc, hs⟩ := mem_candidateList (mem_of_mem_getRecommendations h)
  obtain ⟨h1, -, -, -, -, h6, -⟩ := scoreCreature_eq_some hs
  rw [h1]
  exact h6 rfl

/-- Claim C3: a creature can appear in the output only when it is
color-identity legal against the commander resolved from the catalog;
a creature with empty color identity is always legal; one with non-empty
color identity is legal exactly when each of its colors is among the
commander colors; and a commander with empty color identity makes every
non-colorless creature illegal. -/
theorem mtg_C3 :
    (∀ (sys : MTGSystem) (cmd : String) (top_k : ℕ) (ik : Bool) (rec : Recommendation),
      rec ∈ getRecommendations sys cmd top_k ik →
      ∃ cmdr c, findCreature sys.creatures_df cmd = some cmdr ∧ c ∈ sys.creatures_df ∧
        c.name = rec.creature_name ∧
        isValidColorIdentity c.color_identity_parsed cmdr.color_identity_parsed = true) ∧
    (∀ commander_colors : List String, isValidColorIdentity [] commander_colors = true) ∧
    (∀ creature_colors commander_colors : List String, creature_colors ≠ [] →
      (isValidColorIdentity creature_colors commander_colors = true ↔
        ∀ x ∈ creature_colors, x ∈ commander_colors)) ∧
    (∀ creature_colors : List String, creature_colors ≠ [] →
      isValidColorIdentity creature_colors [] = false) := by
  refine ⟨?_, ?_, ?_, ?_⟩
  · intro sys cmd top_k ik rec h
    obtain ⟨cmdr, hfind, i, hi, hc, hs⟩ := mem_candidateList (mem_of_mem_getRecommendations h)
    obtain ⟨h1, -, -, -, -, -, h7, -⟩ := scoreCreature_eq_some hs
    exact ⟨cmdr, sys.creatures_df.get ⟨i, hc⟩, hfind, List.get_mem _ _ _, h1.symm, h7⟩
  · intro commander_colors
    simp [isValidColorIdentity]
  · intro creature_colors commander_colors hne
    cases creature_colors with
    | nil => exact absurd rfl hne
    | cons a t =>
      cases commander_colors with
      | nil =>
        simp only [isValidColorIdentity, if_neg (by simp : ¬(a :: t = ([] : List String)))]
        simp
        exact ⟨a, fun h2 => absurd rfl h2⟩
      | cons b s => simp [isValidColorIdentity]
  · intro creature_colors hne
    cases creature_colors with
    | nil => exact absurd rfl hne
    | cons a t => simp [isValidColorIdentity]

/-- Claim C2: the returned list is sorted by final score in descending
order, contains at most top_k entries, equals the stable sort of the
catalog-order candidate list truncated to top_k, and candidates with
equal final score keep their candidate-list (catalog) order through the
sort. -/
theorem mtg_C2 (sys : MTGSystem) (cmd : String) (top_k : ℕ) (ik : Bool) :
    List.Pairwise (fun a b => b.final_score ≤ a.final_score)
      (getRecommendations sys cmd top_k ik) ∧
    (getRecommendations sys cmd top_k ik).length ≤ top_k ∧
    getRecommendations sys cmd top_k ik =
      ((candidateList sys cmd ik).insertionSort recRel).take top_k ∧
    (∀ a b : Recommendation, a.final_score = b.final_score →
      [a, b].Sublist (candidateList sys cmd ik) →
      [a, b].Sublist ((candidateList sys cmd ik).insertionSort recRel)) := by
  refine ⟨?_, ?_, rfl, ?_⟩
  · have hs2 : List.Pairwise (fun a b : Recommendation => b.final_score ≤ a.final_score)
        ((candidateList sys cmd ik).insertionSort recRel) :=
      List.sorted_insertionSort recRel (candidateList sys cmd ik)
    exact List.Pairwise.sublist (List.take_sublist _ _) hs2
  · rw [getRecommendations, List.length_take]
    exact min_le_left _ _
  · intro a b heq hsub
    exact List.pair_sublist_insertionSort (le_of_eq heq.symm) hsub

/-- The candidate list is empty when the commander does not resolve in the catalog. -/
theorem candidateList_eq_nil_of_find_none {sys : MTGSystem} {cmd : String} {ik : Bool}
    (h : findCreature sys.creatures_df cmd = none) : candidateList sys cmd ik = [] := by
  simp only [candidateList, h]
  split
  · rfl
  · rfl

/-- The candidate list is empty when no training row resolves in the catalog. -/
theorem candidateList_eq_nil_of_unresolved {sys : MTGSystem} {cmd : String} {ik : Bool}
    (h : ∀ r ∈ commanderRecs sys cmd,
      findCreature sys.creatures_df r.recommended_creature = none) :
    candidateList sys cmd ik = [] := by
  have hidx : recIndices sys (commanderRecs sys cmd) = [] := by
    rw [recIndices, List.filterMap_eq_nil_iff]
    intro r hr
    rw [List.findIdx?_eq_none_iff]
    intro c hc
    have hnone := List.find?_eq_none.mp (h r hr) c hc
    simpa using hnone
  simp only [candidateList, hidx]
  split
  · rfl
  · split
    · rfl
    · simp

/-- Claim C4: when the commander has no training example, or is absent
from the catalog, or none of its companion creatures resolve against the
catalog, getRecommendations returns the empty list rather than failing;
and getCommanderInfo returns an absent result when the commander has no
training examples. -/
theorem mtg_C4 (sys : MTGSystem) (cmd : String) (top_k : ℕ) (ik : Bool) :
    (commanderRecs sys cmd = [] →
      getRecommendations sys cmd top_k ik = [] ∧ getCommanderInfo sys cmd = none) ∧
    (findCreature sys.creatures_df cmd = none → getRecommendations sys cmd top_k ik = []) ∧
    ((∀ r ∈ commanderRecs sys cmd,
        findCreature sys.creatures_df r.recommended_creature = none) →
      getRecommendations sys cmd top_k ik = []) := by
  refine ⟨?_, ?_, ?_⟩
  · intro h
    constructor
    · simp [getRecommendations, candidateList, h]
    · simp [getCommanderInfo, h]
  · intro h
    simp [getRecommendations, candidateList_eq_nil_of_find_none h]
  · intro h
    simp [getRecommendations, candidateList_eq_nil_of_unresolved h]

/-- The resolved stat pairs are the stats of the resolved companions. -/
theorem resolvedPTData_eq_map (sys : MTGSystem) (recs : List TrainingExample) :
    resolvedPTData sys recs =
      (resolvedCompanions sys recs).map (fun c => (c.power_clean, c.toughness_clean)) :=
  (List.map_filterMap _ _ _).symm

/-- The pattern flags depend only on the resolved stat data. -/
theorem getPTPatterns_eq_ptFromData (sys : MTGSystem) (recs : List TrainingExample) :
    getPTPatterns sys recs = ptFromData (resolvedPTData sys recs) := by
  by_cases h0 : recs.length = 0
  · have hnil : recs = [] := List.length_eq_zero.mp h0
    subst hnil
    simp [getPTPatterns, ptFromData, resolvedPTData]
  · simp only [getPTPatterns, ptFromData, if_neg h0]

/-- Rational threshold test versus counts. -/
theorem ratio_decide_iff (num den : ℕ) (q : ℚ) (hden : 0 < den) :
    (decide (((num : ℚ) / (den : ℚ)) ≥ q) = true) ↔ q * den ≤ num := by
  rw [decide_eq_true_eq, ge_iff_le, le_div_iff₀ (by exact_mod_cast hden)]

/-- Claim C5: with no resolved companion all three pattern flags are
false; otherwise the high-power flag holds exactly when at least 75
percent of the resolved companions have power at least 4, the low-power
flag exactly when at least 75 percent have power at most 2, and the
high-toughness flag exactly when at least 80 percent have toughness
strictly greater than power. -/
theorem mtg_C5 (sys : MTGSystem) (recs : List TrainingExample) :
    (resolvedCompanions sys recs = [] → getPTPatterns sys recs = ⟨false, false, false⟩) ∧
    (resolvedCompanions sys recs ≠ [] →
      (((getPTPatterns sys recs).high_power_boost = true ↔
        (3 : ℚ)/4 * (resolvedCompanions sys recs).length ≤
          ((resolvedCompanions sys recs).filter (fun c => c.power_clean ≥ 4)).length) ∧
      ((getPTPatterns sys recs).low_power_boost = true ↔
        (3 : ℚ)/4 * (resolvedCompanions sys recs).length ≤
          ((resolvedCompanions sys recs).filter (fun c => c.power_clean ≤ 2)).length) ∧
      ((getPTPatterns sys recs).high_toughness_boost = true ↔
        (4 : ℚ)/5 * (resolvedCompanions sys recs).length ≤
          ((resolvedCompanions sys recs).filter
            (fun c => c.toughness_clean > c.power_clean)).length))) := by
  have hdata := resolvedPTData_eq_map sys recs
  rw [getPTPatterns_eq_ptFromData, hdata]
  set res := resolvedCompanions sys recs with hres
  constructor
  · intro h
    rw [h]
    simp [ptFromData]
  · intro hne
    have hmapne : res.map (fun c => (c.power_clean, c.toughness_clean)) ≠ [] := by
      simpa using hne
    have hlen : 0 < res.length := List.length_pos.mpr hne
    have hfp : ∀ p : ℚ × ℚ → Bool,
        ((res.map (fun c => (c.power_clean, c.toughness_clean))).filter p).length =
          (res.filter (fun c => p (c.power_clean, c.toughness_clean))).length := by
      intro p
      rw [List.filter_map, List.length_map]
      rfl
    simp only [ptFromData, if_neg hmapne, List.length_map]
    refine ⟨?_, ?_, ?_⟩
    · rw [hfp, ratio_decide_iff _ _ _ hlen]
    · rw [hfp, ratio_decide_iff _ _ _ hlen]
    · rw [hfp, ratio_decide_iff _ _ _ hlen]

/-- Claim C9: constructing the engine on an empty creature catalog fails
with a construction error and produces no engine; the batch transform of
the external vectorizer artifact rejects an empty document collection,
modelled from the spec. -/
theorem mtg_C9 (tfidf : String → List ℚ) (cosine : List ℚ → List ℚ → ℚ)
    (commander_patterns : List (String × CommanderPattern))
    (features_df : List TrainingExample)
    (keyword_boost type_boost power_boost toughness_boost known_penalty
      short_text_penalty : ℚ) :
    mkSystem tfidf cosine commander_patterns [] features_df keyword_boost type_boost
      power_boost toughness_boost known_penalty short_text_penalty =
      Except.error "empty catalog" := rfl

/-- Claim C10: for every commander with at least one training example,
getCommanderInfo reports as companion count the total number of training
rows, including rows whose referenced creature is absent from the
catalog, so the count is at least the number of resolved companions and
can exceed it, as the concrete sample instance in the second conjunct
shows; and the reported pattern flags are computed from the resolved
stat data only, all false when no referenced creature resolves. -/
theorem mtg_C10 :
    (∀ (sys : MTGSystem) (cmd : String), commanderRecs sys cmd ≠ [] →
      ∃ info, getCommanderInfo sys cmd = some info ∧
        info.total_recommendations = (commanderRecs sys cmd).length ∧
        (resolvedCompanions sys (commanderRecs sys cmd)).length ≤
          info.total_recommendations ∧
        info.power_toughness_patterns =
          ptFromData (resolvedPTData sys (commanderRecs sys cmd)) ∧
        (resolvedCompanions sys (commanderRecs sys cmd) = [] →
          info.power_toughness_patterns = ⟨false, false, false⟩)) ∧
    ((getCommanderInfo sampleSys "C").map (fun i => i.total_recommendations) = some 2 ∧
      (resolvedCompanions sampleSys (commanderRecs sampleSys "C")).length = 1) := by
  constructor
  · intro sys cmd hne
    have h0 : ¬ (commanderRecs sys cmd).length = 0 := by
      simpa [List.length_eq_zero] using hne
    refine ⟨⟨(commanderRecs sys cmd).length, (lookupPatterns sys cmd).consensus_keywords,
      (lookupPatterns sys cmd).consensus_types, getPTPatterns sys (commanderRecs sys cmd)⟩,
      by simp only [getCommanderInfo, if_neg h0], rfl, ?_, ?_, ?_⟩
    · exact List.length_filterMap_le _ _
    · exact getPTPatterns_eq_ptFromData sys (commanderRecs sys cmd)
    · intro h
      rw [getPTPatterns_eq_ptFromData, resolvedPTData_eq_map, h]
      simp [ptFromData]
  · exact ⟨by decide, by decide⟩

/-- Pointwise filterMap comparison. -/
theorem forall₂_filterMap {α β : Type _} {l : List α} {f g : α → Option β}
    {R : β → β → Prop}
    (h : ∀ a ∈ l, (f a = none ∧ g a = none) ∨
      ∃ b1 b2, f a = some b1 ∧ g a = some b2 ∧ R b1 b2) :
    List.Forall₂ R (l.filterMap f) (l.filterMap g) := by
  induction l with
  | nil => exact List.Forall₂.nil
  | cons a t ih =>
    rcases h a (List.mem_cons_self a t) with ⟨hf, hg⟩ | ⟨b1, b2, hf, hg, hR⟩
    · simp only [List.filterMap_cons, hf, hg]
      exact ih (fun x hx => h x (List.mem_cons_of_mem a hx))
    · simp only [List.filterMap_cons, hf, hg]
      exact List.Forall₂.cons hR (ih fun x hx => h x (List.mem_cons_of_mem a hx))

set_option maxHeartbeats 3200000 in
/-- One loop iteration under two engines that differ only in
`keyword_boost`: same skip decision; a keyword-boosted record scores
strictly higher under the larger boost when the penalty knobs are
positive, and an unboosted record is unchanged. -/
theorem scoreCreature_keyword_mono (sys sys2 : MTGSystem)
    (htb : sys2.type_boost = sys.type_boost)
    (hpb : sys2.power_boost = sys.power_boost)
    (htob : sys2.toughness_boost = sys.toughness_boost)
    (hkp2 : sys2.known_penalty = sys.known_penalty)
    (hstp2 : sys2.short_text_penalty = sys.short_text_penalty)
    (hkb : sys.keyword_boost < sys2.keyword_boost)
    (hkp : 0 < sys.known_penalty) (hstp : 0 < sys.short_text_penalty)
    (cmd : String) (ik : Bool) (colors cks cts known : List String) (pt : PTPatterns)
    (sim : ℚ) (c : Creature) :
    (scoreCreature sys cmd ik colors cks cts pt known sim c = none ∧
      scoreCreature sys2 cmd ik colors cks cts pt known sim c = none) ∨
    (∃ r1 r2, scoreCreature sys cmd ik colors cks cts pt known sim c = some r1 ∧
      scoreCreature sys2 cmd ik colors cks cts pt known sim c = some r2 ∧
      r1.creature_name = c.name ∧ r2.creature_name = c.name ∧
      ((∃ kw ∈ cks, kw ∈ c.keywords_parsed) → r1.final_score < r2.final_score) ∧
      (¬ (∃ kw ∈ cks, kw ∈ c.keywords_parsed) → r2 = r1)) := by
  simp only [scoreCreature]
  by_cases h1 : c.name = cmd
  · left
    rw [if_pos h1, if_pos h1]
    exact ⟨rfl, rfl⟩
  rw [if_neg h1, if_neg h1]
  by_cases h2 : ¬ ik = true ∧ c.name ∈ known
  · left
    rw [if_pos h2, if_pos h2]
    exact ⟨rfl, rfl⟩
  rw [if_neg h2, if_neg h2]
  by_cases h3 : ¬ isValidColorIdentity c.color_identity_parsed colors = true
  · left
    rw [if_pos h3, if_pos h3]
    exact ⟨rfl, rfl⟩
  rw [if_neg h3, if_neg h3]
  right
  refine ⟨_, _, rfl, rfl, rfl, rfl, ?_, ?_⟩
  · intro hkw
    have hb : (cks.any fun kw => decide (kw ∈ c.keywords_parsed)) = true := by
      simpa using hkw
    dsimp only
    rw [htb, hpb, htob, hkp2, hstp2, if_pos hb, if_pos hb]
    split_ifs <;>
      linarith [mul_pos (mul_pos (sub_pos.mpr hkb) hkp) hstp,
        mul_pos (sub_pos.mpr hkb) hkp, mul_pos (sub_pos.mpr hkb) hstp, sub_pos.mpr hkb]
  · intro hkw
    have hb : (cks.any fun kw => decide (kw ∈ c.keywords_parsed)) = false := by
      simpa using hkw
    have hnb : ¬ ((cks.any fun kw => decide (kw ∈ c.keywords_parsed)) = true) := by
      simp [hb]
    rw [htb, hpb, htob, hkp2, hstp2]
    rw [if_neg hnb, if_neg hnb, if_neg hnb, if_neg hnb]

/-- Claim C8, amended: for two engines identical in every input and
configuration value except that the second has a strictly larger
keyword boost, and with the two penalty multipliers positive, the two
candidate lists correspond pointwise; a candidate whose creature has a
keyword in the consensus-keyword list scores strictly higher under the
second engine, and every other candidate has exactly the same record.
The positivity hypotheses are forced by the counterexample below, where
a zero known penalty erases the gain of the boosted candidate. -/
theorem mtg_C8 (sys : MTGSystem) (kb2 : ℚ) (cmd : String) (ik : Bool)
    (hkb : sys.keyword_boost < kb2) (hkp : 0 < sys.known_penalty)
    (hstp : 0 < sys.short_text_penalty) :
    List.Forall₂ (fun r1 r2 =>
      r1.creature_name = r2.creature_name ∧
      ∃ c, c ∈ sys.creatures_df ∧ c.name = r1.creature_name ∧
        ((∃ kw ∈ consensusKeywordsOf sys cmd, kw ∈ c.keywords_parsed) →
          r1.final_score < r2.final_score) ∧
        (¬ (∃ kw ∈ consensusKeywordsOf sys cmd, kw ∈ c.keywords_parsed) → r2 = r1))
      (candidateList sys cmd ik)
      (candidateList { sys with keyword_boost := kb2 } cmd ik) := by
  have hA : commanderRecs { sys with keyword_boost := kb2 } cmd = commanderRecs sys cmd := rfl
  have hB : consensusKeywordsOf { sys with keyword_boost := kb2 } cmd =
      consensusKeywordsOf sys cmd := rfl
  have hC : consensusTypesOf { sys with keyword_boost := kb2 } cmd =
      consensusTypesOf sys cmd := rfl
  have hD : getPTPatterns { sys with keyword_boost := kb2 } (commanderRecs sys cmd) =
      getPTPatterns sys (commanderRecs sys cmd) := rfl
  have hE : recIndices { sys with keyword_boost := kb2 } (commanderRecs sys cmd) =
      recIndices sys (commanderRecs sys cmd) := rfl
  have hF : targetEmbedding { sys with keyword_boost := kb2 } cmd =
      targetEmbedding sys cmd := rfl
  have hG : knownCreatures { sys with keyword_boost := kb2 } cmd =
      knownCreatures sys cmd := rfl
  have hH : ({ sys with keyword_boost := kb2 } : MTGSystem).creatures_df =
      sys.creatures_df := rfl
  have hI : ({ sys with keyword_boost := kb2 } : MTGSystem).creature_embeddings =
      sys.creature_embeddings := rfl
  have hJ : ({ sys with keyword_boost := kb2 } : MTGSystem).cosine = sys.cosine := rfl
  simp only [candidateList, hA, hB, hC, hD, hE, hF, hG, hH, hI, hJ]
  by_cases h0 : (commanderRecs sys cmd).length = 0
  · rw [if_pos h0, if_pos h0]
    exact List.Forall₂.nil
  rw [if_neg h0, if_neg h0]
  rcases hfind : findCreature sys.creatures_df cmd with _ | cmdr
  · simp only [hfind]
    exact List.Forall₂.nil
  simp only [hfind]
  by_cases hidx : recIndices sys (commanderRecs sys cmd) = []
  · rw [if_pos hidx, if_pos hidx]
    exact List.Forall₂.nil
  rw [if_neg hidx, if_neg hidx]
  apply forall₂_filterMap
  intro p hp
  have hcmem : p.2 ∈ sys.creatures_df := (List.of_mem_zip hp).2
  rcases scoreCreature_keyword_mono sys { sys with keyword_boost := kb2 } rfl rfl rfl rfl rfl
      hkb hkp hstp cmd ik cmdr.color_identity_parsed (consensusKeywordsOf sys cmd)
      (consensusTypesOf sys cmd) (knownCreatures sys cmd)
      (getPTPatterns sys (commanderRecs sys cmd)) p.1 p.2 with
    ⟨hf, hg⟩ | ⟨r1, r2, hf, hg, hn1, hn2, hinc, heq⟩
  · exact Or.inl ⟨hf, hg⟩
  · refine Or.inr ⟨r1, r2, hf, hg, ?_, p.2, hcmem, hn1.symm, hinc, heq⟩
    rw [hn1, hn2]

/-- Claim C8 counterexample: with a zero known penalty the two engines
differ only in the keyword boost, the sole candidate receives the
keyword boost, yet its final score does not strictly increase, so the
claim fails as stated over all configurations. -/
theorem mtg_C8_counterexample :
    cexSysB = { cexSysA with keyword_boost := 2/10 } ∧
    cexSysA.keyword_boost < cexSysB.keyword_boost ∧
    ∃ r1 ∈ candidateList cexSysA "C" true, ∃ r2 ∈ candidateList cexSysB "C" true,
      r1.creature_name = r2.creature_name ∧
      (∃ c ∈ cexSysA.creatures_df, c.name = r1.creature_name ∧
        ∃ kw ∈ consensusKeywordsOf cexSysA "C", kw ∈ c.keywords_parsed) ∧
      ¬ r1.final_score < r2.final_score :=
  ⟨rfl, by decide, by decide⟩

/-- Claim C1 witness: the theorem applied at a concrete engine, every hypothesis discharged by evaluation. -/
theorem mtg_C1_witness :
    sampleRecX ∈ getRecommendations sampleSys "C" 5 true ∧
    (∃ (i : ℕ) (hi : i < sampleSys.creature_embeddings.length)
        (hc : i < sampleSys.creatures_df.length),
      sampleRecX.creature_name = (sampleSys.creatures_df.get ⟨i, hc⟩).name ∧
      sampleRecX.base_similarity =
        sampleSys.cosine (targetEmbedding sampleSys "C")
          (sampleSys.creature_embeddings.get ⟨i, hi⟩) ∧
      sampleRecX.is_known =
        decide ((sampleSys.creatures_df.get ⟨i, hc⟩).name ∈ knownCreatures sampleSys "C") ∧
      sampleRecX.final_score =
        (sampleRecX.base_similarity
          + (if ∃ kw ∈ consensusKeywordsOf sampleSys "C",
                kw ∈ (sampleSys.creatures_df.get ⟨i, hc⟩).keywords_parsed
             then sampleSys.keyword_boost else 0)
          + (if ∃ t2 ∈ consensusTypesOf sampleSys "C",
                t2 ∈ secondaryTypes (sampleSys.creatures_df.get ⟨i, hc⟩)
             then sampleSys.type_boost else 0)
          + (if (getPTPatterns sampleSys (commanderRecs sampleSys "C")).high_power_boost = true ∧
                (sampleSys.creatures_df.get ⟨i, hc⟩).power_clean ≥ 4
             then sampleSys.power_boost else 0)
          + (if (getPTPatterns sampleSys (commanderRecs sampleSys "C")).low_power_boost = true ∧
                (sampleSys.creatures_df.get ⟨i, hc⟩).power_clean ≤ 2
             then sampleSys.power_boost else 0)
          + (if (getPTPatterns sampleSys (commanderRecs sampleSys "C")).high_toughness_boost = true ∧
                (sampleSys.creatures_df.get ⟨i, hc⟩).toughness_clean >
                  (sampleSys.creatures_df.get ⟨i, hc⟩).power_clean
             then sampleSys.toughness_boost else 0))
        * (if (sampleSys.creatures_df.get ⟨i, hc⟩).name ∈ knownCreatures sampleSys "C"
           then sampleSys.known_penalty else 1)
        * (if oracleLen (sampleSys.creatures_df.get ⟨i, hc⟩) < 40
           then sampleSys.short_text_penalty else 1)) :=
  ⟨by decide, mtg_C1 sampleSys "C" 5 true sampleRecX (by decide)⟩

/-- Claim C2 witness: the theorem applied at a concrete engine, every hypothesis discharged by evaluation. -/
theorem mtg_C2_witness :
    List.Pairwise (fun a b => b.final_score ≤ a.final_score)
      (getRecommendations tieSys "C" 2 true) ∧
    (getRecommendations tieSys "C" 2 true).length ≤ 2 ∧
    [tieRecA, tieRecB].Sublist ((candidateList tieSys "C" true).insertionSort recRel) :=
  ⟨(mtg_C2 tieSys "C" 2 true).1, (mtg_C2 tieSys "C" 2 true).2.1,
    (mtg_C2 tieSys "C" 2 true).2.2.2 tieRecA tieRecB (by decide) (by decide)⟩

/-- Claim C3 witness: the theorem applied at a concrete engine, every hypothesis discharged by evaluation. -/
theorem mtg_C3_witness :
    (∃ cmdr c, findCreature sampleSys.creatures_df "C" = some cmdr ∧
      c ∈ sampleSys.creatures_df ∧ c.name = sampleRecX.creature_name ∧
      isValidColorIdentity c.color_identity_parsed cmdr.color_identity_parsed = true) ∧
    isValidColorIdentity [] ["G"] = true ∧
    (isValidColorIdentity ["U"] ["G"] = true ↔ ∀ x ∈ ["U"], x ∈ ["G"]) ∧
    isValidColorIdentity ["U"] [] = false :=
  ⟨mtg_C3.1 sampleSys "C" 5 true sampleRecX (by decide), mtg_C3.2.1 ["G"],
    mtg_C3.2.2.1 ["U"] ["G"] (by decide), mtg_C3.2.2.2 ["U"] (by decide)⟩

/-- Claim C4 witness: the theorem applied at a concrete engine, every hypothesis discharged by evaluation. -/
theorem mtg_C4_witness :
    (getRecommendations sampleSys "Nobody" 5 true = [] ∧
      getCommanderInfo sampleSys "Nobody" = none) ∧
    getRecommendations sampleSys "T" 5 true = [] ∧
    getRecommendations sampleSys "U" 5 true = [] :=
  ⟨(mtg_C4 sampleSys "Nobody" 5 true).1 (by decide),
    (mtg_C4 sampleSys "T" 5 true).2.1 (by decide),
    (mtg_C4 sampleSys "U" 5 true).2.2 (by decide)⟩

/-- Claim C5 witness: the theorem applied at a concrete engine, every hypothesis discharged by evaluation. -/
theorem mtg_C5_witness :
    getPTPatterns sampleSys (commanderRecs sampleSys "U") = ⟨false, false, false⟩ ∧
    (((getPTPatterns sampleSys (commanderRecs sampleSys "C")).high_power_boost = true ↔
      (3 : ℚ)/4 * (resolvedCompanions sampleSys (commanderRecs sampleSys "C")).length ≤
        ((resolvedCompanions sampleSys (commanderRecs sampleSys "C")).filter
          (fun c => c.power_clean ≥ 4)).length) ∧
    ((getPTPatterns sampleSys (commanderRecs sampleSys "C")).low_power_boost = true ↔
      (3 : ℚ)/4 * (resolvedCompanions sampleSys (commanderRecs sampleSys "C")).length ≤
        ((resolvedCompanions sampleSys (commanderRecs sampleSys "C")).filter
          (fun c => c.power_clean ≤ 2)).length) ∧
    ((getPTPatterns sampleSys (commanderRecs sampleSys "C")).high_toughness_boost = true ↔
      (4 : ℚ)/5 * (resolvedCompanions sampleSys (commanderRecs sampleSys "C")).length ≤
        ((resolvedCompanions sampleSys (commanderRecs sampleSys "C")).filter
          (fun c => c.toughness_clean > c.power_clean)).length)) :=
  ⟨(mtg_C5 sampleSys (commanderRecs sampleSys "U")).1 (by decide),
    (mtg_C5 sampleSys (commanderRecs sampleSys "C")).2 (by decide)⟩

/-- Claim C6 witness: the theorem applied at a concrete engine, every hypothesis discharged by evaluation. -/
theorem mtg_C6_witness : sampleRecX.creature_name ≠ "C" :=
  mtg_C6 sampleSys "C" 5 true sampleRecX (by decide)

/-- Claim C7 witness: the theorem applied at a concrete engine, every hypothesis discharged by evaluation. -/
theorem mtg_C7_witness : sampleRecX.creature_name ∉ knownCreatures sampleSys "C" :=
  mtg_C7 sampleSys "C" 5 sampleRecX (by decide)

/-- Claim C8 witness: the theorem applied at a concrete engine, every hypothesis discharged by evaluation. -/
theorem mtg_C8_witness :
    List.Forall₂ (fun r1 r2 =>
      r1.creature_name = r2.creature_name ∧
      ∃ c, c ∈ sampleSys.creatures_df ∧ c.name = r1.creature_name ∧
        ((∃ kw ∈ consensusKeywordsOf sampleSys "C", kw ∈ c.keywords_parsed) →
          r1.final_score < r2.final_score) ∧
        (¬ (∃ kw ∈ consensusKeywordsOf sampleSys "C", kw ∈ c.keywords_parsed) → r2 = r1))
      (candidateList sampleSys "C" true)
      (candidateList { sampleSys with keyword_boost := 2/10 } "C" true) :=
  mtg_C8 sampleSys (2/10) "C" true (by decide) (by decide) (by decide)

/-- Claim C10 witness: the theorem applied at a concrete engine, every hypothesis discharged by evaluation. -/
theorem mtg_C10_witness :
    ∃ info, getCommanderInfo sampleSys "C" = some info ∧
      info.total_recommendations = (commanderRecs sampleSys "C").length ∧
      (resolvedCompanions sampleSys (commanderRecs sampleSys "C")).length ≤
        info.total_recommendations ∧
      info.power_toughness_patterns =
        ptFromData (resolvedPTData sampleSys (commanderRecs sampleSys "C")) ∧
      (resolvedCompanions sampleSys (commanderRecs sampleSys "C") = [] →
        info.power_toughness_patterns = ⟨false, false, false⟩) :=
  mtg_C10.1 sampleSys "C" (by decide)
